import Mathlib

/-!
Shallow embedding of the CompanionMind backend core: the utterance classifier,
trend analyzer and pattern detector of `pc-backend/sentiment.py`
(class `EnhancedSentimentAnalyzer`) and the sensor-state handlers, history
store and risk fusion of `pc-backend/server.py`.

Python dictionaries with a fixed field set are embedded as structures; fields
that the code reads with `dict.get` and which may be absent are embedded as
`Option` types.  Machine floats only ever hold exact small rationals in the
reasoning below, so they are embedded as `ℚ`.  A Python function that can
raise an exception is embedded as an `Option`-returning function, `none`
standing for the raised exception.  Wall-clock timestamps produced with
`datetime.now()` are presentation-only and are omitted from the embedded
records; derived presentation strings (ISO time formatting, log lines) are
likewise omitted.
-/

namespace CompanionMind

/-- The four emotion categories of `EnhancedSentimentAnalyzer.emotion_keywords`,
in declaration order (the order of iteration over the Python dict). -/
inductive Emotion
  | loneliness
  | sadness
  | anxiety
  | social_disconnection
deriving DecidableEq

/-- Trigger phrases of the `"loneliness"` category (sentiment.py lines 8-12). -/
def lonelinessKeywords : List String :=
  ["lonely", "alone", "isolated", "forgotten", "nobody",
   "no one", "by myself", "on my own", "miss", "missing",
   "abandoned", "left behind", "empty", "solitary"]

/-- Trigger phrases of the `"sadness"` category (sentiment.py lines 13-17). -/
def sadnessKeywords : List String :=
  ["sad", "depressed", "down", "blue", "unhappy",
   "miserable", "hopeless", "despair", "crying", "tears",
   "heartbroken", "grief", "sorrow"]

/-- Trigger phrases of the `"anxiety"` category (sentiment.py lines 18-21). -/
def anxietyKeywords : List String :=
  ["worried", "anxious", "scared", "afraid", "fear",
   "nervous", "stress", "panic", "overwhelmed", "restless"]

/-- Trigger phrases of the `"social_disconnection"` category
(sentiment.py lines 22-26).  The apostrophes of the source phrases are
written with the `\x27` escape. -/
def socialDisconnectionKeywords : List String :=
  ["nobody calls", "nobody visits", "don\x27t talk to anyone",
   "haven\x27t heard from", "they forgot", "too busy for me",
   "don\x27t care", "ignored", "excluded"]

/-- The lexicon as a function from category to its phrase list. -/
def keywordsFor : Emotion → List String
  | .loneliness => lonelinessKeywords
  | .sadness => sadnessKeywords
  | .anxiety => anxietyKeywords
  | .social_disconnection => socialDisconnectionKeywords

/-- The categories in the iteration order of `self.emotion_keywords.items()`. -/
def allEmotions : List Emotion :=
  [.loneliness, .sadness, .anxiety, .social_disconnection]

/-- The `emotion_keywords` dict itself, as an association list in iteration
order. -/
def emotionKeywords : List (Emotion × List String) :=
  allEmotions.map (fun e => (e, keywordsFor e))

/-- Whether the first character list is an initial segment of the second. -/
def matchesHere : List Char → List Char → Bool
  | [], _ => true
  | _ :: _, [] => false
  | p :: ps, c :: cs => p == c && matchesHere ps cs

/-- Whether the pattern occurs as a contiguous substring of the text:
the embedding of Python's `kw in text_lower`. -/
def occursIn (p : List Char) : List Char → Bool
  | [] => matchesHere p []
  | c :: cs => matchesHere p (c :: cs) || occursIn p cs

/-- The embedding of `text.lower()`, as a character list. -/
def lowerChars (s : String) : List Char := s.data.map Char.toLower

/-- One phrase test of the list comprehension
`[kw for kw in keywords if kw in text_lower]` (sentiment.py line 41).
The lexicon phrases are already lowercase in the source, so only the text
is lowercased. -/
def phraseMatches (kw : String) (tl : List Char) : Bool := occursIn kw.data tl

/-- The `matches` list built for one category (sentiment.py line 41). -/
def categoryMatches (e : Emotion) (tl : List Char) : List String :=
  (keywordsFor e).filter (fun kw => phraseMatches kw tl)

/-- The `detected_keywords` dict: only categories with a non-empty match list
get an entry (sentiment.py lines 43-47), in category iteration order. -/
def detectedKeywords (tl : List Char) : List (Emotion × List String) :=
  (allEmotions.map (fun e => (e, categoryMatches e tl))).filter
    (fun p => !p.2.isEmpty)

/-- The `emotion_scores` dict: for each detected category,
`confidence = min(len(matches) * 25, 100)` (sentiment.py line 45). -/
def emotionScores (tl : List Char) : List (Emotion × Nat) :=
  (detectedKeywords tl).map (fun p => (p.1, min (p.2.length * 25) 100))

/-- The embedding of Python's `max(emotion_scores, key=emotion_scores.get)`
together with the subsequent score lookup: the first entry with the maximal
score, in iteration order (a later entry replaces the current one only when
strictly greater). -/
def maxEntry : List (Emotion × Nat) → Option (Emotion × Nat)
  | [] => none
  | p :: ps => some (ps.foldl (fun acc q => if acc.2 < q.2 then q else acc) p)

/-- The record returned by `EnhancedSentimentAnalyzer.analyze`
(sentiment.py lines 71-80), minus the presentation-only `timestamp`. -/
structure SentimentResult where
  primary_emotion : Option Emotion
  confidence : Nat
  severity : String
  negativity_score : Nat
  emotion_breakdown : List (Emotion × Nat)
  detected_keywords : List (Emotion × List String)
  needs_attention : Bool
deriving DecidableEq

/-- The embedding of `EnhancedSentimentAnalyzer.analyze`
(sentiment.py lines 29-80). -/
def analyze (text : String) : SentimentResult :=
  let tl := lowerChars text
  let detected := detectedKeywords tl
  let scores := emotionScores tl
  let pm := maxEntry scores
  let total := (detected.map (fun p => p.2.length)).sum
  let neg := min (total * 15) 100
  { primary_emotion := pm.map Prod.fst
    confidence := (pm.map Prod.snd).getD 0
    severity :=
      if 60 ≤ neg then "severe"
      else if 30 ≤ neg then "moderate"
      else if 0 < neg then "mild"
      else "none"
    negativity_score := neg
    emotion_breakdown := scores
    detected_keywords := detected
    needs_attention := decide (30 ≤ neg) }

/-- A history record carrying a given negativity score and primary emotion.
The trend and pattern functions read only the `negativity_score` and
`primary_emotion` fields of a history entry (via `dict.get`); the remaining
fields are filled with neutral values. -/
def mkRec (n : Nat) (e : Option Emotion) : SentimentResult :=
  { primary_emotion := e
    confidence := 0
    severity := "none"
    negativity_score := n
    emotion_breakdown := []
    detected_keywords := []
    needs_attention := false }

/-- The embedding of the Python slice `l[-n:]`: the last `min n (length l)`
elements. -/
def pySliceLast (n : Nat) (l : List α) : List α := l.drop (l.length - n)

/-- The embedding of the Python slice `l[-6:-3]`
(the `older` slice of `compute_trend_and_risk`, sentiment.py line 91):
the elements at indices `[max 0 (length-6), max 0 (length-3))`. -/
def olderSlice (l : List α) : List α :=
  (l.take (l.length - 3)).drop (l.length - 6)

/-- Sum of `s.get("negativity_score", 0)` over a record list, as a rational. -/
def sumScoresQ (l : List SentimentResult) : ℚ :=
  (l.map (fun s => (s.negativity_score : ℚ))).sum

/-- The `recent_avg` of `compute_trend_and_risk` (sentiment.py line 93):
mean negativity over the slice `sentiment_history[-3:]`. -/
def recentAvg (h : List SentimentResult) : ℚ :=
  sumScoresQ (pySliceLast 3 h) / ((pySliceLast 3 h).length : ℚ)

/-- The `older_avg` of `compute_trend_and_risk` (sentiment.py line 94):
mean negativity over the slice `sentiment_history[-6:-3]`, divided by the
actual slice length `len(older)`. -/
def olderAvg (h : List SentimentResult) : ℚ :=
  sumScoresQ (olderSlice h) / ((olderSlice h).length : ℚ)

/-- Floor of a rational as an integer, computed on the numerator and
denominator with flooring integer division. -/
def ratFloorZ (q : ℚ) : ℤ := Int.fdiv q.num q.den

/-- Round a rational to the nearest integer, ties to the nearest even
integer: the embedding of Python's `round` on an exact value. -/
def roundHalfEven (q : ℚ) : ℤ :=
  let f := ratFloorZ q
  let r := q - (f : ℚ)
  if r < 1/2 then f
  else if 1/2 < r then f + 1
  else if f % 2 = 0 then f else f + 1

/-- The embedding of Python's `round(x, 2)` on an exact rational value. -/
def pyRound2 (q : ℚ) : ℚ := (roundHalfEven (q * 100) : ℚ) / 100

/-- The dict returned by the trend computation.  `recent_avg_negativity` is
an `Option` because the short-history branch of
`compute_trend_and_risk` (sentiment.py lines 84-87) returns a dict without
that key. -/
structure TrendResult where
  trend : String
  risk_level : String
  recent_avg_negativity : Option ℚ
deriving DecidableEq

/-- The trend selection of `compute_trend_and_risk`
(sentiment.py lines 97-102): worsening when the recent average exceeds the
older average by more than 10, improving when it falls short by more than 10,
else stable. -/
def trendLabel (oa ra : ℚ) : String :=
  if oa + 10 < ra then "worsening"
  else if ra < oa - 10 then "improving"
  else "stable"

/-- The risk selection of `compute_trend_and_risk`
(sentiment.py lines 105-110). -/
def riskLabel (ra : ℚ) : String :=
  if 60 ≤ ra then "high"
  else if 30 ≤ ra then "medium"
  else "low"

/-- The embedding of `EnhancedSentimentAnalyzer.compute_trend_and_risk`
(sentiment.py lines 82-116).  The result is `none` exactly when the Python
code would raise `ZeroDivisionError`, i.e. when one of the two window slices
is empty in the long-history branch. -/
def computeTrendAndRisk (h : List SentimentResult) : Option TrendResult :=
  if h.length < 4 then
    some { trend := "insufficient_data", risk_level := "low",
           recent_avg_negativity := none }
  else if (pySliceLast 3 h).length = 0 ∨ (olderSlice h).length = 0 then
    none
  else
    some { trend := trendLabel (olderAvg h) (recentAvg h)
           risk_level := riskLabel (recentAvg h)
           recent_avg_negativity := some (pyRound2 (recentAvg h)) }

/-- The embedding of `AIEngine.get_trend_and_risk` (server.py lines 98-108):
histories shorter than 4 records get the fixed insufficient-data dict, which
here also carries `recent_avg_negativity = 0`; longer histories are passed to
`compute_trend_and_risk`. -/
def getTrendAndRisk (h : List SentimentResult) : Option TrendResult :=
  if h.length < 4 then
    some { trend := "insufficient_data", risk_level := "low",
           recent_avg_negativity := some 0 }
  else
    computeTrendAndRisk h

/-- The dict returned by `analyze_pattern` in the long-history branch
(sentiment.py lines 168-176). -/
structure PatternResult where
  pattern_detected : Bool
  severity : String
  reasons : List String
  high_negativity_count : Nat
  loneliness_mentions : Nat
  escalating : Bool
  recommendation : String
deriving DecidableEq

/-- The two dict shapes `analyze_pattern` can return: the short-history
branch (sentiment.py lines 123-127) carries `pattern_detected = false` and a
reason string, the long branch a full `PatternResult`. -/
inductive PatternOutcome
  | insufficientData (reason : String)
  | result (r : PatternResult)
deriving DecidableEq

/-- The `recent` window of `analyze_pattern`: `sentiment_history[-10:]`. -/
def patternWindow (h : List SentimentResult) : List SentimentResult :=
  pySliceLast 10 h

/-- The `high_negativity_count` of `analyze_pattern`
(sentiment.py lines 133-136): records in the window with
`negativity_score >= 30`. -/
def highNegativityCount (h : List SentimentResult) : Nat :=
  (patternWindow h).countP (fun s => decide (30 ≤ s.negativity_score))

/-- The `loneliness_count` of `analyze_pattern` (sentiment.py lines 139-142):
records in the window whose primary emotion is loneliness. -/
def lonelinessMentions (h : List SentimentResult) : Nat :=
  (patternWindow h).countP
    (fun s => decide (s.primary_emotion = some Emotion.loneliness))

/-- The `escalating` flag of `analyze_pattern` (sentiment.py lines 145-150):
only computed when the window holds at least 5 records, comparing the mean of
the last three window records against the mean of the first three plus 20;
both means are divided by the literal 3. -/
def escalatingIn (h : List SentimentResult) : Bool :=
  let recent := patternWindow h
  if 5 ≤ recent.length then
    let recent_avg := sumScoresQ (pySliceLast 3 recent) / 3
    let older_avg := sumScoresQ (recent.take 3) / 3
    decide (older_avg + 20 < recent_avg)
  else
    false

/-- The embedding of `EnhancedSentimentAnalyzer.analyze_pattern`
(sentiment.py lines 119-176). -/
def analyzePattern (h : List SentimentResult) : PatternOutcome :=
  if h.length < 3 then
    .insufficientData "Insufficient data (need 3+ conversations)"
  else
    let hn := highNegativityCount h
    let lc := lonelinessMentions h
    let esc := escalatingIn h
    let alert := decide (3 ≤ hn) || decide (2 ≤ lc) || esc
    let reasons :=
      (if 3 ≤ hn then [toString hn ++ " negative conversations detected"]
       else [])
      ++ (if 2 ≤ lc then ["Loneliness mentioned " ++ toString lc ++ " times"]
          else [])
      ++ (if esc then ["Emotional state appears to be worsening"] else [])
    .result
      { pattern_detected := alert
        severity := if 5 ≤ hn then "high" else "moderate"
        reasons := reasons
        high_negativity_count := hn
        loneliness_mentions := lc
        escalating := esc
        recommendation :=
          if alert then "Consider reaching out for a personal check-in"
          else "Continue monitoring" }

/-- A loosely-typed sensor event dict as received over the websocket.  Every
field the four handlers read with `data.get` is optional; an absent field is
`none`.  Numeric sensor readings (magnitude, lux level, distance) are
embedded as rationals, timestamps as integers (milliseconds). -/
structure SensorEvent where
  isActive : Option Bool := none
  steps : Option Nat := none
  lastMovement : Option Int := none
  movementCount : Option Nat := none
  timestamp : Option Int := none
  magnitude : Option ℚ := none
  isHome : Option Bool := none
  leftHomeToday : Option Bool := none
  distance : Option ℚ := none
  currentLevel : Option ℚ := none
  isDark : Option Bool := none
  darkDuration : Option Nat := none
deriving DecidableEq

/-- An event with every field absent. -/
def emptyEvent : SensorEvent := {}

/-- The `activity_snapshot` dict built by `handle_motion_update`
(server.py lines 262-267). -/
structure ActivitySnapshot where
  timestamp : Option Int
  is_active : Option Bool
  movement_count : Option Nat
  steps : Nat
deriving DecidableEq

/-- The `fall_event` dict built by `handle_fall_alert`
(server.py lines 280-284), minus the derived ISO `time` string, which is a
pure presentation of `timestamp`.  The handler divides the raw timestamp by
1000 before formatting, so a missing timestamp raises before any state
mutation. -/
structure FallEvent where
  timestamp : Int
  magnitude : Option ℚ
deriving DecidableEq

/-- The `location_snapshot` dict built by `handle_location_update`
(server.py lines 304-308). -/
structure LocationSnapshot where
  timestamp : Option Int
  is_home : Option Bool
  distance_from_home : ℚ
deriving DecidableEq

/-- The `light_snapshot` dict built by `handle_light_update`
(server.py lines 327-331). -/
structure LightSnapshot where
  timestamp : Option Int
  level : Option ℚ
  is_dark : Option Bool
deriving DecidableEq

/-- The `sensor_data["motion"]` dict (server.py lines 68-74). -/
structure MotionState where
  current_activity : String
  steps_today : Nat
  last_movement : Option Int
  fall_alerts : List FallEvent
  activity_history : List ActivitySnapshot
deriving DecidableEq

/-- The `sensor_data["location"]` dict (server.py lines 75-80). -/
structure LocationState where
  is_home : Bool
  left_home_today : Bool
  last_update : Option Int
  history : List LocationSnapshot
deriving DecidableEq

/-- The `sensor_data["light"]` dict (server.py lines 81-87).  The `history`
key is present from initialization on, so the lazy re-initialization check in
`handle_light_update` (server.py lines 333-334) is always a no-op. -/
structure LightState where
  current_level : Option ℚ
  is_dark : Bool
  dark_duration_minutes : Nat
  last_update : Option Int
  history : List LightSnapshot
deriving DecidableEq

/-- The whole `sensor_data` dict. -/
structure SensorState where
  motion : MotionState
  location : LocationState
  light : LightState
deriving DecidableEq

/-- The module-level initial value of `sensor_data` (server.py lines 67-88). -/
def sensorDataInit : SensorState :=
  { motion :=
      { current_activity := "unknown", steps_today := 0,
        last_movement := none, fall_alerts := [], activity_history := [] }
    location :=
      { is_home := true, left_home_today := false, last_update := none,
        history := [] }
    light :=
      { current_level := none, is_dark := false, dark_duration_minutes := 0,
        last_update := none, history := [] } }

/-- Append to a bounded history: the code pattern
`lst.append(x); if len(lst) > cap: lst.pop(0)` shared by all four bounded
histories of server.py. -/
def boundedAppend (cap : Nat) (l : List α) (x : α) : List α :=
  let l' := l ++ [x]
  if cap < l'.length then l'.drop 1 else l'

/-- The snapshot a motion event contributes to `activity_history`. -/
def motionSnapshot (data : SensorEvent) : ActivitySnapshot :=
  { timestamp := data.timestamp
    is_active := data.isActive
    movement_count := data.movementCount
    steps := data.steps.getD 0 }

/-- The embedding of `handle_motion_update` (server.py lines 256-276).
Python's `"active" if data.get("isActive") else "sedentary"` treats an absent
or false value as falsy. -/
def handleMotionUpdate (data : SensorEvent) (st : SensorState) : SensorState :=
  let m := st.motion
  let m :=
    { m with
        current_activity :=
          if data.isActive = some true then "active" else "sedentary"
        steps_today := data.steps.getD 0
        last_movement := data.lastMovement }
  { st with
      motion :=
        { m with
            activity_history :=
              boundedAppend 100 m.activity_history (motionSnapshot data) } }

/-- The embedding of `handle_fall_alert` (server.py lines 278-296).  The
handler computes `data.get("timestamp") / 1000` while building the
`fall_event` dict, so a missing timestamp raises `TypeError` before the
state is touched; the raised exception is embedded as `none`.  (Range errors
of `datetime.fromtimestamp` are not modelled; timestamps are assumed to be
representable.) -/
def handleFallAlert (data : SensorEvent) (st : SensorState) :
    Option SensorState :=
  match data.timestamp with
  | none => none
  | some ts =>
      let ev : FallEvent := { timestamp := ts, magnitude := data.magnitude }
      some
        { st with
            motion :=
              { st.motion with
                  fall_alerts := boundedAppend 50 st.motion.fall_alerts ev } }

/-- The embedding of `handle_location_update` (server.py lines 298-318):
`is_home` defaults to `True`, `left_home_today` to `False`, the snapshot
distance to 0. -/
def handleLocationUpdate (data : SensorEvent) (st : SensorState) :
    SensorState :=
  let loc := st.location
  let loc :=
    { loc with
        is_home := data.isHome.getD true
        left_home_today := data.leftHomeToday.getD false
        last_update := data.timestamp }
  let snap : LocationSnapshot :=
    { timestamp := data.timestamp
      is_home := data.isHome
      distance_from_home := data.distance.getD 0 }
  { st with
      location := { loc with history := boundedAppend 100 loc.history snap } }

/-- The embedding of `handle_light_update` (server.py lines 320-343):
`is_dark` defaults to `False`, `dark_duration_minutes` to 0. -/
def handleLightUpdate (data : SensorEvent) (st : SensorState) : SensorState :=
  let li := st.light
  let li :=
    { li with
        current_level := data.currentLevel
        is_dark := data.isDark.getD false
        dark_duration_minutes := data.darkDuration.getD 0
        last_update := data.timestamp }
  let snap : LightSnapshot :=
    { timestamp := data.timestamp
      level := data.currentLevel
      is_dark := data.isDark }
  { st with
      light := { li with history := boundedAppend 100 li.history snap } }

/-- The dict returned by `AIEngine.get_combined_risk_assessment`
(server.py lines 150-156). -/
structure CombinedRisk where
  overall_risk_level : String
  risk_score : Nat
  emotional_component : TrendResult
  physical_risk_factors : List String
  recommendation : String
deriving DecidableEq

/-- The embedding of `AIEngine._get_risk_recommendation`
(server.py lines 158-166); the `factors` parameter is unused in the code. -/
def getRiskRecommendation (risk_level : String) (_factors : List String) :
    String :=
  if risk_level = "critical" then
    "IMMEDIATE ACTION REQUIRED: Contact user immediately."
  else if risk_level = "high" then
    "HIGH PRIORITY: Reach out to user soon."
  else if risk_level = "moderate" then
    "MONITOR CLOSELY: Continue observation."
  else
    "ROUTINE MONITORING: User appears stable."

/-- The embedding of `AIEngine.get_combined_risk_assessment`
(server.py lines 110-156), parameterized by the sensor state it reads and by
the emotional trend result that the code obtains from
`get_trend_and_risk`. -/
def getCombinedRiskAssessment (sd : SensorState) (emotional_risk : TrendResult) :
    CombinedRisk :=
  let fs1 :=
    if sd.motion.steps_today < 500 then
      ["Very low physical activity (< 500 steps)"]
    else []
  let rs1 : Nat := if sd.motion.steps_today < 500 then 2 else 0
  let fs2 :=
    fs1 ++ (if !sd.location.left_home_today then ["Has not left home today"]
            else [])
  let rs2 := rs1 + (if !sd.location.left_home_today then 1 else 0)
  let fs3 :=
    fs2 ++
      (if 0 < sd.motion.fall_alerts.length then
        [toString sd.motion.fall_alerts.length ++ " fall alert(s) detected"]
       else [])
  let rs3 := rs2 + (if 0 < sd.motion.fall_alerts.length then 3 else 0)
  let emotional_score :=
    if emotional_risk.risk_level = "high" then 3
    else if emotional_risk.risk_level = "medium" then 2
    else 0
  let total := rs3 + emotional_score
  let overall :=
    if 6 ≤ total then "critical"
    else if 4 ≤ total then "high"
    else if 2 ≤ total then "moderate"
    else "low"
  { overall_risk_level := overall
    risk_score := total
    emotional_component := emotional_risk
    physical_risk_factors := fs3
    recommendation := getRiskRecommendation overall fs3 }

/-- The mutable server state the embedded claims are about: `sensor_data`
and `user_profile["sentiment_scores"]` (the history store).  The
`conversations` log and the `loneliness_mentions` counter of `user_profile`
are presentation-side and not needed by any analysed computation. -/
structure ServerState where
  sensors : SensorState
  sentiment_scores : List SentimentResult
deriving DecidableEq

/-- The initial server state (server.py lines 58-88). -/
def serverInit : ServerState :=
  { sensors := sensorDataInit, sentiment_scores := [] }

/-- One inbound websocket message, dispatched by `websocket_client` on its
`type` field (server.py lines 441-464); any type other than the four sensor
types takes the conversation path, which reads the `content` field. -/
inductive Message
  | motionUpdate (data : SensorEvent)
  | fallAlert (data : SensorEvent)
  | locationUpdate (data : SensorEvent)
  | lightUpdate (data : SensorEvent)
  | chat (content : String)
deriving DecidableEq

/-- The embedding of Python's `str.strip()`: drop whitespace from both ends
of the character list. -/
def pyStrip (s : String) : String :=
  ⟨((s.data.dropWhile Char.isWhitespace).reverse.dropWhile
      Char.isWhitespace).reverse⟩

/-- One iteration of the `websocket_client` receive loop
(server.py lines 434-521), restricted to its state mutations: sensor
messages run their handler; a conversation message is stripped, skipped when
empty, and otherwise its classifier output is appended (uncapped) to
`user_profile["sentiment_scores"]`.  A raised exception (`none`) ends the
loop. -/
def serverStep (st : ServerState) (m : Message) : Option ServerState :=
  match m with
  | .motionUpdate d => some { st with sensors := handleMotionUpdate d st.sensors }
  | .fallAlert d =>
      (handleFallAlert d st.sensors).map (fun s => { st with sensors := s })
  | .locationUpdate d =>
      some { st with sensors := handleLocationUpdate d st.sensors }
  | .lightUpdate d =>
      some { st with sensors := handleLightUpdate d st.sensors }
  | .chat content =>
      let msg := pyStrip content
      if msg = "" then some st
      else
        some { st with
                 sentiment_scores := st.sentiment_scores ++ [analyze msg] }

/-- Run the receive loop from a given state over a message list. -/
def runServerFrom (st : ServerState) (msgs : List Message) :
    Option ServerState :=
  msgs.foldlM (fun s m => serverStep s m) st

/-- Run the receive loop from the initial server state. -/
def runServer (msgs : List Message) : Option ServerState :=
  runServerFrom serverInit msgs

/-- The six-record history of the spec example, with negativity scores
10, 10, 10, 70, 70, 70. -/
def exampleSixRecords : List SentimentResult :=
  [mkRec 10 none, mkRec 10 none, mkRec 10 none,
   mkRec 70 none, mkRec 70 none, mkRec 70 none]

/-- A four-record history whose older slice holds a single record of score
30, with all recent scores 0. -/
def exHistoryFour : List SentimentResult :=
  [mkRec 30 none, mkRec 0 none, mkRec 0 none, mkRec 0 none]




/-! ## Helper lemmas about the history slices and labels -/

theorem pySliceLast_length {α : Type} (n : Nat) (l : List α) :
    (pySliceLast n l).length = min n l.length := by
  simp [pySliceLast]
  omega

theorem olderSlice_length {α : Type} (l : List α) :
    (olderSlice l).length = min 3 (l.length - 3) := by
  simp [olderSlice]
  omega

theorem computeTrendAndRisk_of_ge4 (h : List SentimentResult)
    (h4 : 4 ≤ h.length) :
    computeTrendAndRisk h
      = some { trend := trendLabel (olderAvg h) (recentAvg h)
               risk_level := riskLabel (recentAvg h)
               recent_avg_negativity := some (pyRound2 (recentAvg h)) } := by
  have h1 : ¬ h.length < 4 := by omega
  have h2 : ¬ ((pySliceLast 3 h).length = 0 ∨ (olderSlice h).length = 0) := by
    rw [pySliceLast_length, olderSlice_length]
    omega
  rw [computeTrendAndRisk, if_neg h1, if_neg h2]

theorem trendLabel_spec (oa ra : ℚ) :
    (trendLabel oa ra = "worsening" ↔ oa + 10 < ra)
    ∧ (trendLabel oa ra = "improving" ↔ ra < oa - 10)
    ∧ (trendLabel oa ra = "stable" ↔ (¬ oa + 10 < ra ∧ ¬ ra < oa - 10)) := by
  unfold trendLabel
  split_ifs with hc1 hc2
  · exact ⟨iff_of_true rfl hc1,
      iff_of_false (by decide) (by intro hc; linarith),
      iff_of_false (by decide) (by intro hc; exact hc.1 hc1)⟩
  · exact ⟨iff_of_false (by decide) hc1,
      iff_of_true rfl hc2,
      iff_of_false (by decide) (by intro hc; exact hc.2 hc2)⟩
  · exact ⟨iff_of_false (by decide) hc1,
      iff_of_false (by decide) hc2,
      iff_of_true rfl ⟨hc1, hc2⟩⟩

theorem riskLabel_spec (ra : ℚ) :
    (riskLabel ra = "high" ↔ 60 ≤ ra)
    ∧ (riskLabel ra = "medium" ↔ (30 ≤ ra ∧ ra < 60))
    ∧ (riskLabel ra = "low" ↔ ra < 30) := by
  unfold riskLabel
  split_ifs with hc1 hc2
  · exact ⟨iff_of_true rfl hc1,
      iff_of_false (by decide) (by intro hc; linarith),
      iff_of_false (by decide) (by intro hc; linarith)⟩
  · exact ⟨iff_of_false (by decide) hc1,
      iff_of_true rfl ⟨hc2, by linarith [not_le.mp hc1]⟩,
      iff_of_false (by decide) (by intro hc; linarith)⟩
  · exact ⟨iff_of_false (by decide) hc1,
      iff_of_false (by decide) (by intro hc; exact hc2 hc.1),
      iff_of_true rfl (by push_neg at hc2; exact hc2)⟩



/-! ## Claim theorems -/

/-- Modelled from the words of claim C1, for refutation: the older-window
average computed with the alleged fixed divisor 3 regardless of the actual
slice length. -/
def olderAvgFixedThree (h : List SentimentResult) : ℚ :=
  sumScoresQ (olderSlice h) / 3

/-- C1, counterexample: on the four-record history with scores
30, 0, 0, 0 the older slice holds the single record of score 30 and the
code's older average is 30 = 30/1, not 10 = 30/3 as the claimed fixed
divisor 3 would give; observably, the code reports trend improving while
the claimed arithmetic would not satisfy the improving comparison. -/
theorem c1_counterexample :
    olderAvg exHistoryFour = 30
    ∧ olderAvgFixedThree exHistoryFour = 10
    ∧ olderAvg exHistoryFour ≠ olderAvgFixedThree exHistoryFour
    ∧ computeTrendAndRisk exHistoryFour
        = some { trend := "improving", risk_level := "low",
                 recent_avg_negativity := some 0 }
    ∧ ¬ recentAvg exHistoryFour < olderAvgFixedThree exHistoryFour - 10 := by
  have hra : recentAvg exHistoryFour = 0 := by
    norm_num [recentAvg, pySliceLast, sumScoresQ, exHistoryFour, mkRec]
  have hoa : olderAvg exHistoryFour = 30 := by
    norm_num [olderAvg, olderSlice, sumScoresQ, exHistoryFour, mkRec]
  have hfix : olderAvgFixedThree exHistoryFour = 10 := by
    norm_num [olderAvgFixedThree, olderSlice, sumScoresQ, exHistoryFour, mkRec]
  have h0 : pyRound2 0 = 0 := by norm_num [pyRound2, roundHalfEven, ratFloorZ]
  refine ⟨hoa, hfix, by rw [hoa, hfix]; norm_num, ?_,
    by rw [hra, hfix]; norm_num⟩
  rw [computeTrendAndRisk_of_ge4 _ (by norm_num [exHistoryFour]), hra, hoa]
  have ht : trendLabel 30 0 = "improving" := by
    unfold trendLabel
    norm_num
  have hrk : riskLabel 0 = "low" := by
    unfold riskLabel
    norm_num
  rw [ht, hrk, h0]

/-- C1, amended: for every sentiment history of length at least 4, the
older-window average divides the sum of negativity scores of the slice at
positions [-6:-3] by the actual length of that slice, which is
min(3, length-3) — so for histories of length 4 or 5 it divides by 1 or 2,
not by a fixed 3. -/
theorem c1_older_average_actual_divisor (h : List SentimentResult)
    (_h4 : 4 ≤ h.length) :
    (olderSlice h).length = min 3 (h.length - 3)
    ∧ olderAvg h
        = sumScoresQ (olderSlice h) / ((min 3 (h.length - 3) : Nat) : ℚ) := by
  refine ⟨olderSlice_length h, ?_⟩
  rw [olderAvg, olderSlice_length]

/-- Witness for C1 at the concrete four-record history. -/
theorem c1_witness :
    (olderSlice exHistoryFour).length = min 3 (exHistoryFour.length - 3)
    ∧ olderAvg exHistoryFour
        = sumScoresQ (olderSlice exHistoryFour)
            / ((min 3 (exHistoryFour.length - 3) : Nat) : ℚ) :=
  c1_older_average_actual_divisor exHistoryFour (by norm_num [exHistoryFour])

/-- C4: for every history of length at least 4, the trend is worsening iff
the recent average exceeds the older average by more than 10, improving iff
it falls short by more than 10, else stable; the risk level is high iff the
recent average is at least 60, medium iff it is in [30,60), else low; and on
the six-record history with scores 10,10,10,70,70,70 the recent average is
70, the older average 10, the trend worsening and the risk level high. -/
theorem c4_trend_and_risk_thresholds :
    (∀ h : List SentimentResult, 4 ≤ h.length →
      ∃ r, computeTrendAndRisk h = some r
        ∧ (r.trend = "worsening" ↔ olderAvg h + 10 < recentAvg h)
        ∧ (r.trend = "improving" ↔ recentAvg h < olderAvg h - 10)
        ∧ (r.trend = "stable" ↔
            (¬ olderAvg h + 10 < recentAvg h
             ∧ ¬ recentAvg h < olderAvg h - 10))
        ∧ (r.risk_level = "high" ↔ 60 ≤ recentAvg h)
        ∧ (r.risk_level = "medium" ↔ (30 ≤ recentAvg h ∧ recentAvg h < 60))
        ∧ (r.risk_level = "low" ↔ recentAvg h < 30))
    ∧ (recentAvg exampleSixRecords = 70 ∧ olderAvg exampleSixRecords = 10
       ∧ ∃ r, computeTrendAndRisk exampleSixRecords = some r
           ∧ r.trend = "worsening" ∧ r.risk_level = "high") := by
  constructor
  · intro h h4
    refine ⟨_, computeTrendAndRisk_of_ge4 h h4, (trendLabel_spec _ _).1,
      (trendLabel_spec _ _).2.1, (trendLabel_spec _ _).2.2,
      (riskLabel_spec _).1, (riskLabel_spec _).2.1, (riskLabel_spec _).2.2⟩
  · have hra : recentAvg exampleSixRecords = 70 := by
      norm_num [recentAvg, pySliceLast, sumScoresQ, exampleSixRecords, mkRec]
    have hoa : olderAvg exampleSixRecords = 10 := by
      norm_num [olderAvg, olderSlice, sumScoresQ, exampleSixRecords, mkRec]
    refine ⟨hra, hoa, _,
      computeTrendAndRisk_of_ge4 _ (by norm_num [exampleSixRecords]), ?_, ?_⟩
    · show trendLabel (olderAvg exampleSixRecords)
          (recentAvg exampleSixRecords) = "worsening"
      rw [hra, hoa]
      exact (trendLabel_spec 10 70).1.mpr (by norm_num)
    · show riskLabel (recentAvg exampleSixRecords) = "high"
      rw [hra]
      exact (riskLabel_spec 70).1.mpr (by norm_num)

/-- Witness for C4 at the concrete six-record example history. -/
theorem c4_witness :
    ∃ r, computeTrendAndRisk exampleSixRecords = some r
      ∧ (r.trend = "worsening" ↔
          olderAvg exampleSixRecords + 10 < recentAvg exampleSixRecords)
      ∧ (r.trend = "improving" ↔
          recentAvg exampleSixRecords < olderAvg exampleSixRecords - 10)
      ∧ (r.trend = "stable" ↔
          (¬ olderAvg exampleSixRecords + 10 < recentAvg exampleSixRecords
           ∧ ¬ recentAvg exampleSixRecords < olderAvg exampleSixRecords - 10))
      ∧ (r.risk_level = "high" ↔ 60 ≤ recentAvg exampleSixRecords)
      ∧ (r.risk_level = "medium" ↔
          (30 ≤ recentAvg exampleSixRecords
           ∧ recentAvg exampleSixRecords < 60))
      ∧ (r.risk_level = "low" ↔ recentAvg exampleSixRecords < 30) :=
  c4_trend_and_risk_thresholds.1 exampleSixRecords
    (by norm_num [exampleSixRecords])

/-- C7: for every history with fewer than 4 records, regardless of content,
the trend computation returns trend insufficient_data, risk level low and a
recent average negativity of 0. -/
theorem c7_insufficient_history (h : List SentimentResult)
    (hlen : h.length < 4) :
    getTrendAndRisk h
      = some { trend := "insufficient_data", risk_level := "low",
               recent_avg_negativity := some 0 } := by
  rw [getTrendAndRisk, if_pos hlen]

/-- Witness for C7 at a concrete three-record history of maximal scores. -/
theorem c7_witness :
    getTrendAndRisk
        [mkRec 100 (some .loneliness), mkRec 100 none, mkRec 100 none]
      = some { trend := "insufficient_data", risk_level := "low",
               recent_avg_negativity := some 0 } :=
  c7_insufficient_history _ (by norm_num)

/-- C10: for every history of length at least 4, the older slice at
positions [-6:-3] is non-empty (its length is min(3, length-3) which is at
least 1) and the recent slice has exactly 3 elements, so neither division of
the trend computation divides by zero and the computation returns a
result. -/
theorem c10_no_division_by_zero (h : List SentimentResult)
    (h4 : 4 ≤ h.length) :
    1 ≤ (olderSlice h).length
    ∧ (olderSlice h).length = min 3 (h.length - 3)
    ∧ (pySliceLast 3 h).length = 3
    ∧ (computeTrendAndRisk h).isSome := by
  refine ⟨?_, olderSlice_length h, ?_, ?_⟩
  · rw [olderSlice_length]; omega
  · rw [pySliceLast_length]; omega
  · rw [computeTrendAndRisk_of_ge4 h h4]; rfl

/-- Witness for C10 at the concrete four-record history. -/
theorem c10_witness :
    1 ≤ (olderSlice exHistoryFour).length
    ∧ (olderSlice exHistoryFour).length = min 3 (exHistoryFour.length - 3)
    ∧ (pySliceLast 3 exHistoryFour).length = 3
    ∧ (computeTrendAndRisk exHistoryFour).isSome :=
  c10_no_division_by_zero exHistoryFour (by norm_num [exHistoryFour])

/-- C6: for every history of length at least 3, the pattern detector reports
a pattern exactly when one of the three triggers over the last-10 window
holds (at least 3 high-negativity records, at least 2 loneliness mentions,
or escalation), severity is high exactly when the high-negativity count is
at least 5 and moderate otherwise (computed regardless of window length),
and the recommendation is the fixed check-in string when a pattern is
detected and the fixed monitoring string otherwise. -/
theorem c6_pattern_detector (h : List SentimentResult) (h3 : 3 ≤ h.length) :
    ∃ r, analyzePattern h = .result r
      ∧ r.high_negativity_count = highNegativityCount h
      ∧ r.loneliness_mentions = lonelinessMentions h
      ∧ r.escalating = escalatingIn h
      ∧ (r.pattern_detected = true ↔
          (3 ≤ highNegativityCount h ∨ 2 ≤ lonelinessMentions h
           ∨ escalatingIn h = true))
      ∧ (r.severity = "high" ↔ 5 ≤ highNegativityCount h)
      ∧ (r.severity = "moderate" ↔ highNegativityCount h < 5)
      ∧ r.recommendation
          = (if r.pattern_detected
             then "Consider reaching out for a personal check-in"
             else "Continue monitoring") := by
  have h1 : ¬ h.length < 3 := by omega
  rw [analyzePattern, if_neg h1]
  refine ⟨_, rfl, rfl, rfl, rfl, ?_, ?_, ?_, rfl⟩
  · simp [Bool.or_eq_true, decide_eq_true_iff, or_assoc]
  · show (if 5 ≤ highNegativityCount h then "high" else "moderate")
        = "high" ↔ _
    split_ifs with hc
    · exact iff_of_true rfl hc
    · exact iff_of_false (by decide) hc
  · show (if 5 ≤ highNegativityCount h then "high" else "moderate")
        = "moderate" ↔ _
    split_ifs with hc
    · exact iff_of_false (by decide) (by omega)
    · exact iff_of_true rfl (by omega)

/-- A three-record history in which every record has negativity 50: the
window is too short for the escalating check, yet severity is computed. -/
def exPatternThree : List SentimentResult :=
  [mkRec 50 none, mkRec 50 none, mkRec 50 none]

/-- Witness for C6 at a concrete three-record history. -/
theorem c6_witness :
    ∃ r, analyzePattern exPatternThree = .result r
      ∧ r.high_negativity_count = highNegativityCount exPatternThree
      ∧ r.loneliness_mentions = lonelinessMentions exPatternThree
      ∧ r.escalating = escalatingIn exPatternThree
      ∧ (r.pattern_detected = true ↔
          (3 ≤ highNegativityCount exPatternThree
           ∨ 2 ≤ lonelinessMentions exPatternThree
           ∨ escalatingIn exPatternThree = true))
      ∧ (r.severity = "high" ↔ 5 ≤ highNegativityCount exPatternThree)
      ∧ (r.severity = "moderate" ↔ highNegativityCount exPatternThree < 5)
      ∧ r.recommendation
          = (if r.pattern_detected
             then "Consider reaching out for a personal check-in"
             else "Continue monitoring") :=
  c6_pattern_detector exPatternThree (by norm_num [exPatternThree])

/-- C3: for every sensor state and emotional trend result, the combined risk
score is the sum of +2 for low steps, +1 for not having left home, +3 for a
non-empty fall-alert list (independent of its length), and +3/+2/+0 for
emotional risk high/medium/other; and the overall risk level is selected
from the total by the fixed thresholds 6, 4 and 2. -/
theorem c3_combined_risk (sd : SensorState) (er : TrendResult) :
    (getCombinedRiskAssessment sd er).risk_score
      = (if sd.motion.steps_today < 500 then 2 else 0)
        + (if sd.location.left_home_today = false then 1 else 0)
        + (if sd.motion.fall_alerts ≠ [] then 3 else 0)
        + (if er.risk_level = "high" then 3
           else if er.risk_level = "medium" then 2 else 0)
    ∧ (getCombinedRiskAssessment sd er).overall_risk_level
        = (if 6 ≤ (getCombinedRiskAssessment sd er).risk_score then "critical"
           else if 4 ≤ (getCombinedRiskAssessment sd er).risk_score then
             "high"
           else if 2 ≤ (getCombinedRiskAssessment sd er).risk_score then
             "moderate"
           else "low") := by
  constructor
  · cases hl : sd.location.left_home_today <;>
      cases hf : sd.motion.fall_alerts <;>
        simp [getCombinedRiskAssessment, hl, hf]
  · rfl

/-! ## Sensor handlers: totality, defaults and bounded histories -/

/-- C2, counterexample: on an event with every field missing, the fall-alert
handler raises a TypeError (None / 1000) before mutating any state — embedded
as the handler returning none — so the handlers are not all total; moreover
a missing isHome field defaults to true, not false. -/
theorem c2_counterexample :
    handleFallAlert emptyEvent sensorDataInit = none
    ∧ (handleLocationUpdate emptyEvent sensorDataInit).location.is_home
        = true :=
  ⟨rfl, rfl⟩

/-- C2, amended: the motion, location and light handlers are total over
loosely-typed events and give a missing steps field the default 0, a missing
leftHomeToday or isDark field the default false, treat a missing isActive
field as falsy (activity sedentary), and give a missing isHome field the
default true; the fall-alert handler succeeds exactly when the timestamp
field is present. -/
theorem c2_sensor_update_defaults (st : SensorState) (e : SensorEvent) :
    ((handleFallAlert e st).isSome ↔ e.timestamp ≠ none)
    ∧ (e.steps = none → (handleMotionUpdate e st).motion.steps_today = 0)
    ∧ (e.isActive = none →
        (handleMotionUpdate e st).motion.current_activity = "sedentary")
    ∧ (e.leftHomeToday = none →
        (handleLocationUpdate e st).location.left_home_today = false)
    ∧ (e.isHome = none →
        (handleLocationUpdate e st).location.is_home = true)
    ∧ (e.isDark = none → (handleLightUpdate e st).light.is_dark = false)
    ∧ (e.darkDuration = none →
        (handleLightUpdate e st).light.dark_duration_minutes = 0) := by
  refine ⟨?_, ?_, ?_, ?_, ?_, ?_, ?_⟩
  · cases ht : e.timestamp <;> simp [handleFallAlert, ht]
  · intro hs; simp [handleMotionUpdate, hs]
  · intro ha; simp [handleMotionUpdate, ha]
  · intro hl; simp [handleLocationUpdate, hl]
  · intro hh; simp [handleLocationUpdate, hh]
  · intro hd; simp [handleLightUpdate, hd]
  · intro hd; simp [handleLightUpdate, hd]

/-- Witness for C2 at the all-fields-missing event and the initial sensor
state. -/
theorem c2_witness :
    ((handleFallAlert emptyEvent sensorDataInit).isSome ↔
      emptyEvent.timestamp ≠ none)
    ∧ (handleMotionUpdate emptyEvent sensorDataInit).motion.steps_today = 0
    ∧ (handleMotionUpdate emptyEvent sensorDataInit).motion.current_activity
        = "sedentary"
    ∧ (handleLocationUpdate emptyEvent
        sensorDataInit).location.left_home_today = false
    ∧ (handleLocationUpdate emptyEvent sensorDataInit).location.is_home = true
    ∧ (handleLightUpdate emptyEvent sensorDataInit).light.is_dark = false
    ∧ (handleLightUpdate emptyEvent
        sensorDataInit).light.dark_duration_minutes = 0 := by
  have h := c2_sensor_update_defaults sensorDataInit emptyEvent
  exact ⟨h.1, h.2.1 rfl, h.2.2.1 rfl, h.2.2.2.1 rfl, h.2.2.2.2.1 rfl,
    h.2.2.2.2.2.1 rfl, h.2.2.2.2.2.2 rfl⟩

/-- The size invariant of the four bounded sensor histories. -/
def boundsOk (s : SensorState) : Prop :=
  s.motion.activity_history.length ≤ 100
  ∧ s.motion.fall_alerts.length ≤ 50
  ∧ s.location.history.length ≤ 100
  ∧ s.light.history.length ≤ 100

theorem boundedAppend_length_le {α : Type} (cap : Nat) (l : List α) (x : α)
    (hl : l.length ≤ cap) : (boundedAppend cap l x).length ≤ cap := by
  simp only [boundedAppend]
  split_ifs with hc <;> simp_all

theorem serverStep_boundsOk {st st' : ServerState} {m : Message}
    (hb : boundsOk st.sensors) (hstep : serverStep st m = some st') :
    boundsOk st'.sensors := by
  obtain ⟨h1, h2, h3, h4⟩ := hb
  cases m with
  | motionUpdate d =>
      simp only [serverStep, Option.some_inj] at hstep
      subst hstep
      exact ⟨boundedAppend_length_le _ _ _ h1, h2, h3, h4⟩
  | fallAlert d =>
      simp only [serverStep] at hstep
      cases ht : d.timestamp with
      | none => rw [handleFallAlert, ht] at hstep; cases hstep
      | some ts =>
          rw [handleFallAlert, ht] at hstep
          simp only [Option.map_some', Option.some_inj] at hstep
          subst hstep
          exact ⟨h1, boundedAppend_length_le _ _ _ h2, h3, h4⟩
  | locationUpdate d =>
      simp only [serverStep, Option.some_inj] at hstep
      subst hstep
      exact ⟨h1, h2, boundedAppend_length_le _ _ _ h3, h4⟩
  | lightUpdate d =>
      simp only [serverStep, Option.some_inj] at hstep
      subst hstep
      exact ⟨h1, h2, h3, boundedAppend_length_le _ _ _ h4⟩
  | chat content =>
      simp only [serverStep] at hstep
      split_ifs at hstep <;>
        simp only [Option.some_inj] at hstep <;>
          subst hstep <;> exact ⟨h1, h2, h3, h4⟩

theorem runServerFrom_boundsOk (msgs : List Message) :
    ∀ st₀ st : ServerState, boundsOk st₀.sensors →
      runServerFrom st₀ msgs = some st → boundsOk st.sensors := by
  induction msgs with
  | nil =>
      intro st₀ st hb hrun
      simp only [runServerFrom, List.foldlM_nil] at hrun
      cases hrun
      exact hb
  | cons m ms ih =>
      intro st₀ st hb hrun
      rw [runServerFrom, List.foldlM_cons] at hrun
      cases hstep : serverStep st₀ m with
      | none => rw [hstep] at hrun; cases hrun
      | some s1 =>
          rw [hstep] at hrun
          exact ih s1 st (serverStep_boundsOk hb hstep) hrun

theorem foldl_boundedAppend_eq {α : Type} (cap : Nat) (hcap : 1 ≤ cap)
    (xs : List α) :
    xs.foldl (boundedAppend cap) [] = xs.drop (xs.length - cap) := by
  induction xs using List.reverseRecOn with
  | nil => simp
  | append_singleton l x ih =>
      rw [List.foldl_append, List.foldl_cons, List.foldl_nil, ih]
      rcases Nat.lt_or_ge l.length cap with hl | hl
      · have h1 : l.length - cap = 0 := by omega
        have h2 : (l ++ [x]).length - cap = 0 := by
          simp
          omega
        rw [h1, h2, List.drop_zero, List.drop_zero]
        simp only [boundedAppend]
        rw [if_neg (by simp; omega)]
      · have hd : (l.drop (l.length - cap)).length = cap := by
          simp
          omega
        simp only [boundedAppend]
        rw [if_pos (by simp [hd] :
              cap < ((l.drop (l.length - cap)) ++ [x]).length)]
        rw [List.drop_append_of_le_length
              (by omega : 1 ≤ (l.drop (l.length - cap)).length)]
        rw [List.drop_drop]
        rw [List.drop_append_of_le_length
              (show (l ++ [x]).length - cap ≤ l.length by simp; omega)]
        have harg : l.length - cap + 1 = (l ++ [x]).length - cap := by
          simp
          omega
        rw [harg]

theorem motionFold_history (events : List SensorEvent) (st : SensorState) :
    ((events.foldl (fun s d => handleMotionUpdate d s)
        st).motion.activity_history)
      = events.foldl (fun l d => boundedAppend 100 l (motionSnapshot d))
          st.motion.activity_history := by
  induction events generalizing st with
  | nil => rfl
  | cons d ds ih =>
      rw [List.foldl_cons, List.foldl_cons, ih]
      rfl

/-- C8: after any websocket message sequence that the loop survives, the
motion activity history, location history and light history each hold at
most 100 entries and the fall-alert list at most 50; and after appending
more than 100 motion events, the stored activity history is exactly the 100
most recently appended snapshots, in append order. -/
theorem c8_bounded_histories :
    (∀ (msgs : List Message) (st : ServerState),
        runServer msgs = some st → boundsOk st.sensors)
    ∧ (∀ events : List SensorEvent, 100 < events.length →
        ((events.foldl (fun s d => handleMotionUpdate d s)
            sensorDataInit).motion.activity_history
          = (events.map motionSnapshot).drop (events.length - 100))
        ∧ ((events.foldl (fun s d => handleMotionUpdate d s)
            sensorDataInit).motion.activity_history).length = 100) := by
  constructor
  · intro msgs st hrun
    refine runServerFrom_boundsOk msgs serverInit st ?_ hrun
    exact ⟨by norm_num [serverInit, sensorDataInit],
      by norm_num [serverInit, sensorDataInit],
      by norm_num [serverInit, sensorDataInit],
      by norm_num [serverInit, sensorDataInit]⟩
  · intro events hN
    have hh : ((events.foldl (fun s d => handleMotionUpdate d s)
        sensorDataInit).motion.activity_history)
          = (events.map motionSnapshot).drop (events.length - 100) := by
      rw [motionFold_history]
      show events.foldl
          (fun l d => boundedAppend 100 l (motionSnapshot d)) [] = _
      rw [← List.foldl_map motionSnapshot (boundedAppend 100)]
      rw [foldl_boundedAppend_eq 100 (by omega)]
      rw [List.length_map]
    refine ⟨hh, ?_⟩
    rw [hh]
    simp
    omega

/-- Witness for C8 at the empty message sequence and at a concrete sequence
of 101 motion events. -/
theorem c8_witness :
    boundsOk serverInit.sensors
    ∧ (((List.replicate 101 emptyEvent).foldl
          (fun s d => handleMotionUpdate d s)
          sensorDataInit).motion.activity_history
        = ((List.replicate 101 emptyEvent).map motionSnapshot).drop
            ((List.replicate 101 emptyEvent).length - 100))
    ∧ (((List.replicate 101 emptyEvent).foldl
          (fun s d => handleMotionUpdate d s)
          sensorDataInit).motion.activity_history).length = 100 := by
  refine ⟨c8_bounded_histories.1 [] serverInit rfl, ?_, ?_⟩
  · exact (c8_bounded_histories.2 (List.replicate 101 emptyEvent)
      (by simp)).1
  · exact (c8_bounded_histories.2 (List.replicate 101 emptyEvent)
      (by simp)).2

/-! ## History store -/

theorem serverStep_scores_append (st : ServerState) (m : Message)
    (st' : ServerState) (h : serverStep st m = some st') :
    ∃ t, st'.sentiment_scores = st.sentiment_scores ++ t := by
  cases m with
  | motionUpdate d =>
      simp only [serverStep, Option.some_inj] at h
      subst h
      exact ⟨[], by simp⟩
  | fallAlert d =>
      simp only [serverStep] at h
      cases ht : d.timestamp with
      | none => rw [handleFallAlert, ht] at h; cases h
      | some ts =>
          rw [handleFallAlert, ht] at h
          simp only [Option.map_some', Option.some_inj] at h
          subst h
          exact ⟨[], by simp⟩
  | locationUpdate d =>
      simp only [serverStep, Option.some_inj] at h
      subst h
      exact ⟨[], by simp⟩
  | lightUpdate d =>
      simp only [serverStep, Option.some_inj] at h
      subst h
      exact ⟨[], by simp⟩
  | chat content =>
      simp only [serverStep] at h
      split_ifs at h with hc <;> simp only [Option.some_inj] at h <;> subst h
      · exact ⟨[], by simp⟩
      · exact ⟨[analyze (pyStrip content)], rfl⟩

theorem runServerFrom_replicate_chat (n : Nat) :
    ∀ st₀ : ServerState,
      runServerFrom st₀ (List.replicate n (.chat "hello"))
        = some { st₀ with sentiment_scores :=
            st₀.sentiment_scores ++ List.replicate n (analyze "hello") } := by
  induction n with
  | zero =>
      intro st₀
      simp [runServerFrom]
  | succ k ih =>
      intro st₀
      rw [List.replicate_succ, runServerFrom, List.foldlM_cons]
      have hne : pyStrip "hello" = "hello" := by decide
      have hstep : serverStep st₀ (.chat "hello")
          = some { st₀ with sentiment_scores :=
              st₀.sentiment_scores ++ [analyze "hello"] } := by
        simp only [serverStep, hne]
        rw [if_neg (by decide)]
      rw [hstep]
      show runServerFrom { st₀ with sentiment_scores :=
          st₀.sentiment_scores ++ [analyze "hello"] }
        (List.replicate k (.chat "hello")) = _
      rw [ih]
      congr 1
      simp [List.replicate_succ]

/-- C9, counterexample: the stored sequence of sentiment records admits no
fixed cap — for every candidate cap, a run of cap+1 non-empty chat messages
leaves more than cap records in the store. -/
theorem c9_counterexample :
    ¬ ∃ cap : Nat, ∀ (msgs : List Message) (st : ServerState),
        runServer msgs = some st → st.sentiment_scores.length ≤ cap := by
  rintro ⟨cap, hcap⟩
  have h := hcap (List.replicate (cap + 1) (.chat "hello")) _
    (runServerFrom_replicate_chat (cap + 1) serverInit)
  simp [serverInit] at h

/-- C9, amended: the history store of classifier outputs is append-only —
each surviving step only ever appends to the stored sequence — but it is
unbounded: after n non-empty utterances the store holds exactly n records,
so no fixed cap exists. -/
theorem c9_history_append_only_unbounded :
    (∀ (st : ServerState) (m : Message) (st' : ServerState),
        serverStep st m = some st' →
          ∃ t, st'.sentiment_scores = st.sentiment_scores ++ t)
    ∧ (∀ n : Nat, ∃ st : ServerState,
        runServer (List.replicate n (.chat "hello")) = some st
        ∧ st.sentiment_scores.length = n) := by
  constructor
  · exact serverStep_scores_append
  · intro n
    refine ⟨_, runServerFrom_replicate_chat n serverInit, ?_⟩
    simp [serverInit]

/-- Witness for C9 at a concrete step from the initial state. -/
theorem c9_witness :
    ∃ t, ({ serverInit with
        sensors := handleMotionUpdate emptyEvent serverInit.sensors } :
          ServerState).sentiment_scores
      = serverInit.sentiment_scores ++ t :=
  c9_history_append_only_unbounded.1 serverInit (.motionUpdate emptyEvent)
    _ rfl

/-! ## Utterance classifier scores -/

theorem sum_length_filter_nonempty {α β : Type} (l : List (α × List β)) :
    (((l.filter (fun p => !p.2.isEmpty)).map (fun p => p.2.length)).sum)
      = ((l.map (fun p => p.2.length)).sum) := by
  induction l with
  | nil => rfl
  | cons p ps ih =>
      rcases p with ⟨a, l2⟩
      cases l2 with
      | nil => simpa using ih
      | cons b bs => simp [List.filter_cons, ih]

/-- C5: for every input text, the negativity score is
min(100, 15 times the total match count summed per category — a phrase
matched by several categories is counted once per category), each active
category of the emotion breakdown carries confidence
min(100, 25 times its match count), and negativity score and every
per-category confidence are at most 100 (both are natural numbers, hence at
least 0). -/
theorem c5_classifier_scores (text : String) :
    (analyze text).negativity_score
      = min 100 (15 * ((allEmotions.map
          (fun e => (categoryMatches e (lowerChars text)).length)).sum))
    ∧ (∀ p ∈ (analyze text).emotion_breakdown,
        p.2 = min 100 (25 * (categoryMatches p.1 (lowerChars text)).length))
    ∧ (analyze text).negativity_score ≤ 100
    ∧ (∀ p ∈ (analyze text).emotion_breakdown, p.2 ≤ 100) := by
  have h2 : ∀ p ∈ (analyze text).emotion_breakdown,
      p.2 = min 100 (25 * (categoryMatches p.1 (lowerChars text)).length) := by
    intro p hp
    have hp' : p ∈ emotionScores (lowerChars text) := hp
    simp only [emotionScores, detectedKeywords, List.mem_map,
      List.mem_filter] at hp'
    rcases hp' with ⟨q, ⟨hq, -⟩, rfl⟩
    rcases hq with ⟨e, -, rfl⟩
    simp [Nat.min_comm, Nat.mul_comm]
  refine ⟨?_, h2, ?_, ?_⟩
  · have hneg : (analyze text).negativity_score
        = min (((detectedKeywords (lowerChars text)).map
            (fun p => p.2.length)).sum * 15) 100 := rfl
    rw [hneg]
    rw [show detectedKeywords (lowerChars text)
        = (allEmotions.map
            (fun e => (e, categoryMatches e (lowerChars text)))).filter
              (fun p => !p.2.isEmpty) from rfl]
    rw [sum_length_filter_nonempty, List.map_map]
    simp [Function.comp_def, Nat.min_comm, Nat.mul_comm]
  · exact Nat.min_le_right _ _
  · intro p hp
    rw [h2 p hp]
    exact Nat.min_le_left _ _

end CompanionMind
